import Mathlib

/-
Verification development for the real-url-proxy-server repository
(src/webserver.py). The definitions below are a shallow embedding of the
state and operations of the extractor classes, the background-refresh
timer, the HuYa CDN/variant caches, the request dispatcher and the HuYa
manifest proxy. Wall-clock timestamps are modelled as rationals; the
Python sentinel value datetime.min is modelled as the absent timestamp
(Option.none), since the only operation performed on it is an elapsed-time
comparison that it always makes stale.
-/

deriving instance DecidableEq for Except

namespace RealUrlProxy

/-! Base extractor state (webserver.py, class RealUrlExtractor).
Only the resolution fields are carried here; the timer fields are modelled
separately by TimerState below, and last_refresh_time (written but never
read by any decision) is omitted. -/

/-- State of RealUrlExtractor restricted to the resolution fields
(webserver.py lines 53-54): real_url is the last resolution result
(Python None modelled as Option.none), last_valid_real_url the most
recent resolution that passed the validity check. -/
structure ExtState (α : Type) where
  real_url : Option α
  last_valid_real_url : Option α
deriving DecidableEq

/-- Body of RealUrlExtractor._extract_real_url (webserver.py lines 78-92),
parameterised by the provider validity predicate _is_url_valid: if the
current real_url is valid it becomes last_valid_real_url and failover is
False; otherwise, if a last_valid_real_url exists, real_url is restored
from it and failover is True. Returns the updated state and the failover
flag that is passed on to reset_refresh_timer. -/
def baseExtract {α : Type} (isValid : Option α → Bool) (s : ExtState α) :
    ExtState α × Bool :=
  if isValid s.real_url then
    ({ s with last_valid_real_url := s.real_url }, false)
  else if s.last_valid_real_url.isSome then
    ({ s with real_url := s.last_valid_real_url }, true)
  else
    (s, true)

/-! DouYu extractor (webserver.py, class DouYuRealUrlExtractor). -/

/-- Values stored in real_url for the DouYu extractor: the candidate map
returned by DouYu(room).get_real_url() (a dict of bit-rate label to URL,
modelled as an association list), or the literal string sentinel that the
except branch of _extract_real_url assigns (webserver.py line 161). -/
inductive DYVal where
  | sentinel
  | map (m : List (String × String))
deriving DecidableEq

/-- Outcome of one call to the external DouYu provider client
(webserver.py line 159): a candidate map, or a raised exception. -/
inductive DYResolve where
  | ok (m : List (String × String))
  | exn
deriving DecidableEq

/-- DouYuRealUrlExtractor._is_url_valid (webserver.py lines 164-165):
url is not None and url is not the string sentinel; a candidate map always
satisfies both conditions. -/
def douyuIsValid : Option DYVal → Bool
  | some (.map _) => true
  | _ => false

/-- Value assigned to real_url by DouYuRealUrlExtractor._extract_real_url
(webserver.py lines 158-161): the client result, or the string sentinel
when the client raised (the exception is caught there). -/
def douyuClientResult : DYResolve → Option DYVal
  | .ok m => some (.map m)
  | .exn => some .sentinel

/-- DouYuRealUrlExtractor._extract_real_url (webserver.py lines 157-162):
real_url is set from the client call outcome, then the shared base step
runs. -/
def douyuExtract (r : DYResolve) (s : ExtState DYVal) : ExtState DYVal × Bool :=
  baseExtract douyuIsValid { s with real_url := douyuClientResult r }

/-- A sequence of background resolution attempts for a DouYu extractor:
each list element is the outcome of one client call, folded through
_extract_real_url. -/
def douyuRun (rs : List DYResolve) (s : ExtState DYVal) : ExtState DYVal :=
  rs.foldl (fun s r => (douyuExtract r s).1) s

/-- Preference chain of DouYuRealUrlExtractor.get_real_url for an absent or
empty bit_rate (webserver.py lines 175-181): key flv if present, else
2000p, else an unconditional subscript of 900p whose absence raises
KeyError, modelled as the error value. -/
def douyuPrefChain (m : List (String × String)) : Except Unit (Option String) :=
  match m.lookup "flv" with
  | some u => .ok (some u)
  | none =>
    match m.lookup "2000p" with
    | some u => .ok (some u)
    | none =>
      match m.lookup "900p" with
      | some u => .ok (some u)
      | none => .error ()

/-- Selector rendering of DouYuRealUrlExtractor.get_real_url once real_url
holds a valid candidate map m (webserver.py lines 170-183): bit_rate equal
to the string refresh is first replaced by None; None or the empty string
selects the preference chain; any other selector is an exact key lookup
returning None (falling off the end of the function) when the key is
missing. -/
def douyuSelect (m : List (String × String)) (bit_rate : Option String) :
    Except Unit (Option String) :=
  let br := if bit_rate = some "refresh" then none else bit_rate
  match br with
  | none => douyuPrefChain m
  | some b =>
    if b.length = 0 then douyuPrefChain m
    else
      match m.lookup b with
      | some u => .ok (some u)
      | none => .ok none

/-- Rendering part of DouYuRealUrlExtractor.get_real_url (webserver.py
lines 173-183): a real_url failing the validity check yields None,
otherwise the selector policy applies to the candidate map. -/
def douyuRender (s : ExtState DYVal) (bit_rate : Option String) :
    Except Unit (Option String) :=
  match s.real_url with
  | some (.map m) => douyuSelect m bit_rate
  | _ => .ok none

/-- DouYuRealUrlExtractor.get_real_url (webserver.py lines 167-183),
including the base-class step (lines 98-100) that forces a synchronous
_extract_real_url when no resolution exists or the selector is refresh;
r is the client outcome such a forced resolution would observe. Returns
the post-call extractor state and the result: ok none models the Python
returns of None, error models a propagating KeyError. -/
def douyuGetRealUrl (r : DYResolve) (s : ExtState DYVal) (bit_rate : Option String) :
    ExtState DYVal × Except Unit (Option String) :=
  if s.real_url = none ∨ bit_rate = some "refresh" then
    ((douyuExtract r s).1, douyuRender (douyuExtract r s).1 bit_rate)
  else (s, douyuRender s bit_rate)

/-! Background-refresh timer (webserver.py, RealUrlExtractor lines 56-68).
A pending timer is modelled by the delay it was armed with; replacing the
field models the cancel-then-recreate sequence, so an extractor never has
more than one outstanding scheduled refresh. -/

/-- Timer-related state of RealUrlExtractor: the configured
auto_refresh_interval (seconds, exact rational arithmetic) and the pending
refresh timer, modelled by its delay in seconds. -/
structure TimerState where
  auto_refresh_interval : ℚ
  refresh_timer : Option ℚ
deriving DecidableEq

/-- Timer state after RealUrlExtractor.__init__ (webserver.py lines 56-58):
the Timer object constructed when the interval is positive is never
started, so no refresh is pending in either case. -/
def timerInit (interval : ℚ) : TimerState :=
  { auto_refresh_interval := interval, refresh_timer := none }

/-- RealUrlExtractor.reset_refresh_timer (webserver.py lines 60-68): when
the configured interval is positive, the pending timer is cancelled and a
single new one is started, with delay half the interval if this round
failed (failover) and the full interval otherwise; a non-positive interval
leaves the state untouched and schedules nothing. -/
def reset_refresh_timer (s : TimerState) (failover : Bool) : TimerState :=
  if 0 < s.auto_refresh_interval then
    let d := if failover then s.auto_refresh_interval / 2 else s.auto_refresh_interval
    { s with refresh_timer := some d }
  else s

/-! HuYa extractor (webserver.py, class HuYaRealUrlExtractor). -/

/-- One value of the huya client's live_url_infos dict (a CDN endpoint):
the fields read by webserver.py lines 116, 150, 153. -/
structure CdnInfo where
  hls_url : String
  base_url : String
  stream_name : String
deriving DecidableEq

/-- Full state of a HuYaRealUrlExtractor (webserver.py lines 51-58 and
103-108): base-class resolution fields (real_url holds the hls_url string
of the selected CDN), timer fields, cdn_index (initialised to -1),
last_real_urls (cached variant-URL list) and last_get_real_url_time
(none models datetime.min). -/
structure HuYaState where
  auto_refresh_interval : ℚ
  refresh_timer : Option ℚ
  real_url : Option String
  last_valid_real_url : Option String
  cdn_index : ℤ
  last_real_urls : Option (List String)
  last_get_real_url_time : Option ℚ
deriving DecidableEq

/-- HuYaRealUrlExtractor.__init__ (webserver.py lines 103-108): base init
plus cdn_index = -1, no cached variant list, timestamp datetime.min. -/
def huyaInit (interval : ℚ) : HuYaState :=
  { auto_refresh_interval := interval
  , refresh_timer := none
  , real_url := none
  , last_valid_real_url := none
  , cdn_index := -1
  , last_real_urls := none
  , last_get_real_url_time := none }

/-- Python list subscripting with an integer index: a negative index counts
from the end of the list; an index outside [-len, len) raises IndexError,
modelled as none. -/
def pyIdx {α : Type} (l : List α) (i : ℤ) : Option α :=
  if 0 ≤ (if i < 0 then (l.length : ℤ) + i else i) then
    l.get? (if i < 0 then (l.length : ℤ) + i else i).toNat
  else none

/-- Index-clamping step of HuYaRealUrlExtractor._extract_real_url
(webserver.py lines 113-114): an index at least the CDN count is reset to
0; any other value, including the initial -1, is kept. The same comparison
shape recurs at lines 141-142 against the variant-list length. -/
def huyaExtractIdx (cdn_count : ℕ) (i : ℤ) : ℤ :=
  if (cdn_count : ℤ) ≤ i then 0 else i

/-- Inherited reset_refresh_timer applied to the timer fields of a HuYa
state (webserver.py lines 60-68). -/
def huyaResetTimer (s : HuYaState) (failover : Bool) : HuYaState :=
  let t := reset_refresh_timer ⟨s.auto_refresh_interval, s.refresh_timer⟩ failover
  { s with refresh_timer := t.refresh_timer }

/-- Validity/failover part of the base _extract_real_url step (webserver.py
lines 80-86) as run by the HuYa subclass, whose _is_url_valid is url is
not None (lines 121-122). -/
def huyaBaseCore (s : HuYaState) : HuYaState × Bool :=
  if s.real_url.isSome then
    ({ s with last_valid_real_url := s.real_url }, false)
  else if s.last_valid_real_url.isSome then
    ({ s with real_url := s.last_valid_real_url }, true)
  else (s, true)

/-- RealUrlExtractor._extract_real_url base step (webserver.py lines
78-92) as run by the HuYa subclass: the validity/failover part followed by
the reset_refresh_timer call of line 88. -/
def huyaBase (s : HuYaState) : HuYaState × Bool :=
  (huyaResetTimer (huyaBaseCore s).1 (huyaBaseCore s).2, (huyaBaseCore s).2)

/-- HuYaRealUrlExtractor._extract_real_url (webserver.py lines 110-119),
given the list of CDN endpoints that huya.update_live_url_info() installed
(dict values in order): clamp cdn_index from above, select the hls_url at
cdn_index (Python negative indexing; an out-of-range dereference is the
error value), or set real_url to None when no CDN is known, then run the
base step. The caller models update_live_url_info() itself, which can
raise, via an Except-valued argument. -/
def huyaExtractE (infos : List CdnInfo) (s : HuYaState) :
    Except Unit (HuYaState × Bool) :=
  if 0 < infos.length then
    match pyIdx infos (huyaExtractIdx infos.length s.cdn_index) with
    | some info =>
      .ok (huyaBase { s with cdn_index := huyaExtractIdx infos.length s.cdn_index,
                             real_url := some info.hls_url })
    | none => .error ()
  else
    .ok (huyaBase { s with cdn_index := huyaExtractIdx infos.length s.cdn_index,
                           real_url := none })

/-- Staleness test of the variant-URL cache (webserver.py line 133): more
than 120 seconds elapsed since last_get_real_url_time; the datetime.min
initial value (modelled none) is always stale. -/
def cacheStale (t : Option ℚ) (now : ℚ) : Bool :=
  match t with
  | none => true
  | some t0 => decide ((120 : ℚ) < now - t0)

/-- Dereference of the variant list at the (already clamped) cdn_index
(webserver.py line 143): Python indexing, IndexError is the error value. -/
def huyaServeAt (s : HuYaState) (urls : List String) (fetched : Bool) :
    Except Unit (HuYaState × Option String × Bool) :=
  match pyIdx urls s.cdn_index with
  | some u => .ok (s, some u, fetched)
  | none => .error ()

/-- Final serving step of HuYaRealUrlExtractor.get_real_url (webserver.py
lines 140-144): with a non-empty variant list, clamp cdn_index from above
to 0 and return the entry at cdn_index (Python indexing; IndexError is the
error value); an empty list yields None. The boolean records whether this
call fetched a fresh variant list. -/
def huyaServe (s : HuYaState) (urls : List String) (fetched : Bool) :
    Except Unit (HuYaState × Option String × Bool) :=
  if 0 < urls.length then
    huyaServeAt
      (if (urls.length : ℤ) ≤ s.cdn_index then { s with cdn_index := 0 } else s)
      urls fetched
  else .ok (s, none, fetched)

/-- One attempt at HuYaRealUrlExtractor._extract_real_url, as its callers
see it (webserver.py lines 110-119): an error of the external
huya.update_live_url_info() call (upd), or of the index dereference,
aborts the attempt with the exception; otherwise the updated state. -/
def huyaAttemptExtract (upd : Except Unit (List CdnInfo)) (s : HuYaState) :
    Except Unit HuYaState :=
  match upd with
  | .error e => .error e
  | .ok infos =>
    match huyaExtractE infos s with
    | .error e => .error e
    | .ok (s', _) => .ok s'

/-- Selector step of HuYaRealUrlExtractor.get_real_url (webserver.py lines
130-131): a switch_cdn selector increments cdn_index before the variant
list is read. -/
def huyaSwitch (br : Option String) (s : HuYaState) : HuYaState :=
  if br = some "switch_cdn" then { s with cdn_index := s.cdn_index + 1 } else s

/-- Variant-URL cache step of HuYaRealUrlExtractor.get_real_url
(webserver.py lines 133-144): the client list fetch (its would-be result
passed as the argument fetch) runs only when no list is cached or the
cache is stale; otherwise the cached list is reused; then the serving
step. -/
def huyaVariantStep (fetch : List String) (now : ℚ) (s : HuYaState) :
    Except Unit (HuYaState × Option String × Bool) :=
  if s.last_real_urls.isNone || cacheStale s.last_get_real_url_time now then
    huyaServe { s with last_real_urls := some fetch, last_get_real_url_time := some now }
      fetch true
  else
    huyaServe s (s.last_real_urls.getD []) false

/-- HuYaRealUrlExtractor.get_real_url (webserver.py lines 124-144). upd is
the outcome a forced _extract_real_url would observe from
huya.update_live_url_info() (error = the client raised; note there is no
try/except around it, so the error propagates out of this call); fetch is
the list huya.get_real_url(bit_rate) would return; now is the wall clock.
Steps: the base-class forced refresh when real_url is None or the selector
is refresh; refresh selector then cleared; switch_cdn increments
cdn_index; then the variant-cache and serving steps. -/
def huyaGetRealUrl (upd : Except Unit (List CdnInfo)) (fetch : List String)
    (now : ℚ) (s : HuYaState) (bit_rate : Option String) :
    Except Unit (HuYaState × Option String × Bool) :=
  match (if s.real_url = none ∨ bit_rate = some "refresh"
         then huyaAttemptExtract upd s else .ok s) with
  | .error e => .error e
  | .ok s' =>
    huyaVariantStep fetch now
      (huyaSwitch (if bit_rate = some "refresh" then none else bit_rate) s')

/-- HuYaRealUrlExtractor.reset_last_get_real_url_time (webserver.py lines
146-147): the freshness timestamp is set back to datetime.min. -/
def reset_last_get_real_url_time (s : HuYaState) : HuYaState :=
  { s with last_get_real_url_time := none }

/-- RealUrlExtractor.refresh_real_url (webserver.py lines 70-76) as run by
the background timer of a HuYa extractor: under the global lock,
_extract_real_url is attempted and every exception is swallowed by the
bare except, leaving the state exactly as it was (in particular the
refresh timer is not re-armed, since reset_refresh_timer is reached only
when _extract_real_url completes). -/
def huya_refresh_real_url (upd : Except Unit (List CdnInfo)) (s : HuYaState) :
    HuYaState :=
  match huyaAttemptExtract upd s with
  | .error _ => s
  | .ok s' => s'

/-! Request dispatcher and HuYa manifest proxy (webserver.py lines
209-299). -/

/-- HTTP responses produced by serviceWithRate: a sanic redirect or a text
response. The headers field is the value of the headers argument actually
passed at the call site: Option.none models passing Python None. -/
inductive HttpResponse where
  | redirect (url : String) (headers : Option (List (String × String))) (status : ℕ)
  | text (body : String) (headers : Option (List (String × String))) (status : ℕ)
deriving DecidableEq

/-- Module-level crosHeaders dict (webserver.py lines 209-211). -/
def crosHeaders : List (String × String) :=
  [("Access-Control-Allow-Origin", "*"),
   ("Access-Control-Allow-Methods", "GET"),
   ("Access-Control-Allow-Headers", "Content-Type, Content-Length, Authorization")]

/-- Final 404 fallthrough of serviceWithRate (webserver.py lines 290-295):
body is the fixed string Not Found (its gb2312 encoding is plain ASCII);
the headers argument is the Python expression crosHeaders.update({...}),
and dict.update returns None, so the value passed is None. -/
def notFoundResponse : HttpResponse :=
  .text "Not Found" none 404

/-- HuYa success response of serviceWithRate (webserver.py lines 283-286):
its headers argument is likewise crosHeaders.update({...}), i.e. None. -/
def huyaManifestResponse (body : String) (status : ℕ) : HttpResponse :=
  .text body none status

/-- Creation of a DouYu extractor in serviceWithRate (webserver.py line
225): the expression self.auto_refresh_interval is evaluated first, but
serviceWithRate binds no name self, so Python raises NameError before the
constructor runs; the parallel bilibili and huya branches (lines 244, 262)
use the module-level auto_refresh_interval instead. -/
def newDouYuExtractor : Except Unit (ExtState DYVal) := .error ()

/-- In-place mutation of the extractor stored under a key of a processor
map: the registry entry for that room now holds the updated state. -/
def updateEntry {β : Type} (l : List (String × β)) (k : String) (v : β) :
    List (String × β) :=
  l.map (fun p => if p.1 = k then (k, v) else p)

/-- DouYu branch of serviceWithRate (webserver.py lines 218-236). registry
is the per-provider processor map for douyu (room keyed); r the client
outcome a forced resolution would observe; bit_rate None models the
selector-less route (line 297-299). A missing room triggers extractor
creation, whose NameError is caught by the except of line 235 and falls
through to the 404 response; with an extractor present, a non-None
get_real_url result is returned as a 301 redirect carrying crosHeaders,
while None or a propagating exception falls through to 404. -/
def douyuService (registry : List (String × ExtState DYVal)) (room : String)
    (r : DYResolve) (bit_rate : Option String) :
    List (String × ExtState DYVal) × HttpResponse :=
  match registry.lookup room with
  | some s =>
    let out := douyuGetRealUrl r s bit_rate
    let registry' := updateEntry registry room out.1
    match out.2 with
    | .ok (some u) => (registry', .redirect u (some crosHeaders) 301)
    | .ok none => (registry', notFoundResponse)
    | .error _ => (registry', notFoundResponse)
  | none =>
    match newDouYuExtractor with
    | .error _ => (registry, notFoundResponse)
    | .ok s0 =>
      let out := douyuGetRealUrl r s0 bit_rate
      let registry' := (room, out.1) :: registry
      match out.2 with
      | .ok (some u) => (registry', .redirect u (some crosHeaders) 301)
      | .ok none => (registry', notFoundResponse)
      | .error _ => (registry', notFoundResponse)

/-- Provider routing of serviceWithRate (webserver.py lines 218, 237, 255,
290): each branch argument is the response that branch returned, or none
when it fell through; any provider other than douyu, bilibili and huya
reaches the final 404 directly. -/
def serviceDispatch (provider : String)
    (douyuR bilibiliR huyaR : Option HttpResponse) : HttpResponse :=
  if provider = "douyu" then douyuR.getD notFoundResponse
  else if provider = "bilibili" then bilibiliR.getD notFoundResponse
  else if provider = "huya" then huyaR.getD notFoundResponse
  else notFoundResponse

/-- Outcome of the requests.get manifest fetch in the huya branch
(webserver.py line 273): a returned response with its status code and
body, or a raised exception (connection error or the 30-second timeout). -/
inductive FetchOutcome where
  | ok (status : ℕ) (body : String)
  | exn
deriving DecidableEq

/-- Splitting of a character list at every occurrence of a separator
character, used to model the line structure that the multiline regex of
webserver.py line 276 operates on. -/
def splitOnChar (c : Char) : List Char → List (List Char)
  | [] => [[]]
  | x :: xs =>
    let r := splitOnChar c xs
    if x = c then [] :: r
    else
      match r with
      | [] => [[x]]
      | h :: t => (x :: h) :: t

/-- Substring occurrence test on character lists. -/
def listHasInfix (pat : List Char) : List Char → Bool
  | [] => pat.isEmpty
  | x :: t => pat.isPrefixOf (x :: t) || listHasInfix pat t

/-- Manifest rewriting (webserver.py lines 276-277): re.sub with a pattern
group reaching from a line start lazily up to the first literal .ts,
multiline, and replacement base_url + '/' + group. Every match starts at
a line start and ends at that line's first .ts, so the effect is to
prefix each line containing .ts with base_url and a slash, leaving the
remaining lines unchanged. -/
def rewriteManifest (base_url body : String) : String :=
  String.intercalate "\n" ((splitOnChar '\n' body.data).map (fun line =>
    if listHasInfix ".ts".data line then base_url ++ "/" ++ String.mk line
    else String.mk line))

/-- Synthesized single-variant manifest body of the fallback branch
(webserver.py line 279). -/
def fallbackManifest (real_url : String) : String :=
  "#EXTM3U\n#EXT-X-STREAM-INF:PROGRAM-ID=1,BANDWIDTH=1\n" ++ real_url

/-- Manifest-proxy section of the huya branch of serviceWithRate
(webserver.py lines 266-286), given the resolved manifest URL, the current
CDN's base URL and the extractor state. status_code is initialised to 200;
if the fetch raises, the body becomes the synthesized single-variant
manifest referencing real_url and cdn_index is advanced by one (and the
403 check cannot fire since status_code is still 200); if the fetch
returns, the body is rewritten and served with the upstream status, and a
403 status additionally resets the variant-cache freshness timestamp. -/
def huyaProxy (f : FetchOutcome) (real_url base_url : String) (s : HuYaState) :
    HttpResponse × HuYaState :=
  match f with
  | .exn =>
    (huyaManifestResponse (fallbackManifest real_url) 200,
     { s with cdn_index := s.cdn_index + 1 })
  | .ok status body =>
    let content := rewriteManifest base_url body
    let s := if status = 403 then reset_last_get_real_url_time s else s
    (huyaManifestResponse content status, s)

/-! Concrete states used to evaluate the HuYa switch_cdn wrap behaviour. -/

/-- HuYa state with a valid base resolution, cdn_index 0 and a fresh cached
variant list of three entries fetched at time 0. -/
def sWrap0 : HuYaState :=
  { auto_refresh_interval := 0
  , refresh_timer := none
  , real_url := some "h"
  , last_valid_real_url := some "h"
  , cdn_index := 0
  , last_real_urls := some ["u0", "u1", "u2"]
  , last_get_real_url_time := some 0 }

/-- State sWrap0 after one switch_cdn request. -/
def sWrap1 : HuYaState := { sWrap0 with cdn_index := 1 }

/-- State sWrap0 after two switch_cdn requests. -/
def sWrap2 : HuYaState := { sWrap0 with cdn_index := 2 }

/-- Intermediate state of the third switch_cdn request, before the serving
step clamps the incremented index back to 0. -/
def sWrap3 : HuYaState := { sWrap0 with cdn_index := 3 }

/-- Three concrete CDN endpoints, used to evaluate the initial cdn_index
behaviour of the HuYa extractor. -/
def infosW : List CdnInfo :=
  [{ hls_url := "h1", base_url := "b1", stream_name := "s1" },
   { hls_url := "h2", base_url := "b2", stream_name := "s2" },
   { hls_url := "h3", base_url := "b3", stream_name := "s3" }]

/-- A registered DouYu extractor whose current resolution is the candidate
map of the end-to-end example. -/
def sC9 : ExtState DYVal :=
  { real_url := some (.map [("flv", "http://x")])
  , last_valid_real_url := some (.map [("flv", "http://x")]) }

/-! Helper lemmas shared by the claim theorems. -/

theorem pyIdx_isSome {α : Type} (l : List α) (i : ℤ) (h1 : -1 ≤ i)
    (h2 : i < (l.length : ℤ)) (h3 : 0 < l.length) :
    (pyIdx l i).isSome = true := by
  unfold pyIdx
  by_cases hneg : i < 0
  · have hi : i = -1 := by omega
    subst hi
    rw [if_pos hneg]
    have h0 : (0 : ℤ) ≤ (l.length : ℤ) + -1 := by omega
    rw [if_pos h0]
    have hlt : ((l.length : ℤ) + -1).toNat < l.length := by omega
    rw [List.get?_eq_get hlt]
    rfl
  · rw [if_neg hneg]
    have h0 : (0 : ℤ) ≤ i := by omega
    rw [if_pos h0]
    have hlt : i.toNat < l.length := by omega
    rw [List.get?_eq_get hlt]
    rfl

theorem huyaServe_ok (s : HuYaState) (urls : List String) (f : Bool)
    (h : -1 ≤ s.cdn_index) :
    ∃ s' r, huyaServe s urls f = .ok (s', r, f) ∧
      s'.last_real_urls = s.last_real_urls ∧
      s'.last_get_real_url_time = s.last_get_real_url_time := by
  unfold huyaServe
  by_cases hlen : 0 < urls.length
  · rw [if_pos hlen]
    by_cases hcl : (urls.length : ℤ) ≤ s.cdn_index
    · rw [if_pos hcl]
      have hs : (pyIdx urls ({ s with cdn_index := 0 } : HuYaState).cdn_index).isSome
          = true := by
        apply pyIdx_isSome
        · show (-1 : ℤ) ≤ 0; omega
        · show (0 : ℤ) < urls.length; omega
        · exact hlen
      rw [Option.isSome_iff_exists] at hs
      obtain ⟨u, hu⟩ := hs
      unfold huyaServeAt
      rw [hu]
      exact ⟨_, some u, rfl, rfl, rfl⟩
    · rw [if_neg hcl]
      have hs : (pyIdx urls s.cdn_index).isSome = true :=
        pyIdx_isSome _ _ h (by omega) hlen
      rw [Option.isSome_iff_exists] at hs
      obtain ⟨u, hu⟩ := hs
      unfold huyaServeAt
      rw [hu]
      exact ⟨_, some u, rfl, rfl, rfl⟩
  · rw [if_neg hlen]
    exact ⟨s, none, rfl, rfl, rfl⟩

theorem baseExtract_last_valid {α : Type} (isValid : Option α → Bool)
    (s : ExtState α) :
    (baseExtract isValid s).1.last_valid_real_url = s.last_valid_real_url ∨
      isValid ((baseExtract isValid s).1.last_valid_real_url) = true := by
  unfold baseExtract
  split_ifs with h1 h2
  · right; exact h1
  · left; rfl
  · left; rfl

theorem baseExtract_last_valid_isSome {α : Type} (isValid : Option α → Bool)
    (s : ExtState α) (hnone : isValid none = false)
    (h : s.last_valid_real_url.isSome = true) :
    ((baseExtract isValid s).1.last_valid_real_url).isSome = true := by
  unfold baseExtract
  split_ifs with h1
  · cases hr : s.real_url with
    | none => rw [hr, hnone] at h1; exact absurd h1 (by simp)
    | some v => simp [hr]
  · exact h

theorem douyuRun_cons (r : DYResolve) (rs : List DYResolve) (s : ExtState DYVal) :
    douyuRun (r :: rs) s = douyuRun rs (douyuExtract r s).1 := rfl

theorem string_length_zero (b : String) (h : b.length = 0) : b = "" := by
  cases b with
  | mk data =>
    cases data with
    | nil => rfl
    | cons c cs => simp [String.length] at h

theorem douyuExtract_last_valid (r : DYResolve) (s : ExtState DYVal) :
    (douyuExtract r s).1.last_valid_real_url = s.last_valid_real_url ∨
      douyuIsValid ((douyuExtract r s).1.last_valid_real_url) = true :=
  baseExtract_last_valid douyuIsValid _

theorem douyuExtract_last_valid_isSome (r : DYResolve) (s : ExtState DYVal)
    (h : s.last_valid_real_url.isSome = true) :
    ((douyuExtract r s).1.last_valid_real_url).isSome = true :=
  baseExtract_last_valid_isSome douyuIsValid _ rfl h

theorem douyuRun_last_valid (rs : List DYResolve) (s : ExtState DYVal)
    (h : s.last_valid_real_url = none ∨ douyuIsValid s.last_valid_real_url = true) :
    (douyuRun rs s).last_valid_real_url = none ∨
      douyuIsValid (douyuRun rs s).last_valid_real_url = true := by
  induction rs generalizing s with
  | nil => exact h
  | cons r rs ih =>
    rw [douyuRun_cons]
    apply ih
    rcases douyuExtract_last_valid r s with heq | hval
    · rw [heq]; exact h
    · right; exact hval

theorem douyuRun_last_valid_isSome (rs : List DYResolve) (s : ExtState DYVal)
    (h : s.last_valid_real_url.isSome = true) :
    (douyuRun rs s).last_valid_real_url.isSome = true := by
  induction rs generalizing s with
  | nil => exact h
  | cons r rs ih =>
    rw [douyuRun_cons]
    exact ih _ (douyuExtract_last_valid_isSome r s h)

/-! Claim theorems. -/

/-- C2: for every extractor, last_valid_real_url is only ever assigned a
value satisfying the validity predicate and is never cleared by a failed
resolution; consequently, after a resolution failure that follows a prior
successful resolution, get_real_url still renders the previously valid
resolution (failover retention). -/
theorem last_valid_url_invariant_and_retention :
    (∀ (α : Type) (isValid : Option α → Bool) (s : ExtState α),
      (baseExtract isValid s).1.last_valid_real_url = s.last_valid_real_url ∨
        isValid ((baseExtract isValid s).1.last_valid_real_url) = true) ∧
    (∀ (α : Type) (isValid : Option α → Bool) (s : ExtState α),
      isValid none = false → s.last_valid_real_url.isSome = true →
        ((baseExtract isValid s).1.last_valid_real_url).isSome = true) ∧
    (∀ (rs : List DYResolve) (s : ExtState DYVal),
      s.last_valid_real_url = none ∨ douyuIsValid s.last_valid_real_url = true →
        ((douyuRun rs s).last_valid_real_url = none ∨
          douyuIsValid (douyuRun rs s).last_valid_real_url = true)) ∧
    (∀ (rs : List DYResolve) (s : ExtState DYVal),
      s.last_valid_real_url.isSome = true →
        (douyuRun rs s).last_valid_real_url.isSome = true) ∧
    (∀ (m : List (String × String)) (s : ExtState DYVal) (r : DYResolve)
        (br : Option String), br ≠ some "refresh" →
      (douyuGetRealUrl r (douyuRun [.ok m, .exn] s) br).2 = douyuSelect m br) := by
  refine ⟨fun α iv s => baseExtract_last_valid iv s,
    fun α iv s hn h => baseExtract_last_valid_isSome iv s hn h,
    douyuRun_last_valid, douyuRun_last_valid_isSome, ?_⟩
  intro m s r br hbr
  simp [douyuRun, douyuExtract, baseExtract, douyuIsValid, douyuClientResult,
    douyuGetRealUrl, douyuRender, hbr]

/-- Witness for last_valid_url_invariant_and_retention: a concrete DouYu
extractor that resolved the map once, then failed, still renders the old
map's entry. -/
theorem last_valid_url_invariant_and_retention_witness :
    (douyuGetRealUrl .exn
      (douyuRun [.ok [("flv", "A")], .exn]
        { real_url := none, last_valid_real_url := none }) (some "900p")).2
      = douyuSelect [("flv", "A")] (some "900p") :=
  last_valid_url_invariant_and_retention.2.2.2.2 [("flv", "A")]
    { real_url := none, last_valid_real_url := none } .exn (some "900p")
    (by decide)

/-- C4: for a valid DouYu candidate map, get_real_url with an absent or
empty selector prefers flv, then 2000p, then 900p; any other (non-control)
selector is an exact key lookup, absent when the key is missing; in
particular for the map flv=A, 900p=B an absent selector yields A, selector
900p yields B and selector 4000p yields no result. -/
theorem douyu_selector_policy :
    (∀ (m : List (String × String)) (u : String),
      m.lookup "flv" = some u → douyuSelect m none = .ok (some u)) ∧
    (∀ (m : List (String × String)) (u : String), m.lookup "flv" = none →
      m.lookup "2000p" = some u → douyuSelect m none = .ok (some u)) ∧
    (∀ (m : List (String × String)) (u : String), m.lookup "flv" = none →
      m.lookup "2000p" = none → m.lookup "900p" = some u →
      douyuSelect m none = .ok (some u)) ∧
    (∀ (m : List (String × String)), douyuSelect m (some "") = douyuSelect m none) ∧
    (∀ (m : List (String × String)) (b u : String), b ≠ "refresh" → b ≠ "" →
      m.lookup b = some u → douyuSelect m (some b) = .ok (some u)) ∧
    (∀ (m : List (String × String)) (b : String), b ≠ "refresh" → b ≠ "" →
      m.lookup b = none → douyuSelect m (some b) = .ok none) ∧
    (∀ (m : List (String × String)) (r : DYResolve) (lv : Option DYVal)
        (br : Option String), br ≠ some "refresh" →
      (douyuGetRealUrl r { real_url := some (.map m), last_valid_real_url := lv } br).2
        = douyuSelect m br) ∧
    (douyuSelect [("flv", "A"), ("900p", "B")] none = .ok (some "A") ∧
      douyuSelect [("flv", "A"), ("900p", "B")] (some "900p") = .ok (some "B") ∧
      douyuSelect [("flv", "A"), ("900p", "B")] (some "4000p") = .ok none) := by
  refine ⟨?_, ?_, ?_, ?_, ?_, ?_, ?_, by decide⟩
  · intro m u h
    simp [douyuSelect, douyuPrefChain, h]
  · intro m u h1 h2
    simp [douyuSelect, douyuPrefChain, h1, h2]
  · intro m u h1 h2 h3
    simp [douyuSelect, douyuPrefChain, h1, h2, h3]
  · intro m
    simp [douyuSelect, douyuPrefChain]
  · intro m b u hb hb' h
    have hlen : ¬ b.length = 0 := fun hl => hb' (string_length_zero b hl)
    simp [douyuSelect, hb, hlen, h]
  · intro m b hb hb' h
    have hlen : ¬ b.length = 0 := fun hl => hb' (string_length_zero b hl)
    simp [douyuSelect, hb, hlen, h]
  · intro m r lv br hbr
    simp [douyuGetRealUrl, douyuRender, hbr]

/-- Witness for douyu_selector_policy at concrete maps and selectors. -/
theorem douyu_selector_policy_witness :
    douyuSelect [("2000p", "C")] none = .ok (some "C") ∧
    douyuSelect [("flv", "A"), ("900p", "B")] (some "900p") = .ok (some "B") :=
  ⟨douyu_selector_policy.2.1 [("2000p", "C")] "C" (by decide) (by decide),
    douyu_selector_policy.2.2.2.2.1 [("flv", "A"), ("900p", "B")] "900p" "B"
      (by decide) (by decide) (by decide)⟩

/-- C10: a DouYu candidate map that passes the validity predicate but has
none of the keys flv, 2000p and 900p makes get_real_url with an absent
selector raise KeyError on the unconditional 900p subscript instead of
returning absent. -/
theorem douyu_keyerror_reachable (m : List (String × String))
    (h1 : m.lookup "flv" = none) (h2 : m.lookup "2000p" = none)
    (h3 : m.lookup "900p" = none) :
    douyuIsValid (some (.map m)) = true ∧
    douyuSelect m none = .error () ∧
    (∀ (r : DYResolve) (lv : Option DYVal),
      (douyuGetRealUrl r { real_url := some (.map m), last_valid_real_url := lv } none).2
        = .error ()) := by
  refine ⟨rfl, ?_, ?_⟩
  · simp [douyuSelect, douyuPrefChain, h1, h2, h3]
  · intro r lv
    simp [douyuGetRealUrl, douyuRender, douyuSelect, douyuPrefChain, h1, h2, h3]

/-- Witness for douyu_keyerror_reachable: the concrete valid map with the
single key original has no flv, 2000p or 900p entry, and the absent
selector raises. -/
theorem douyu_keyerror_reachable_witness :
    douyuSelect [("original", "x")] none = .error () :=
  (douyu_keyerror_reachable [("original", "x")] (by decide) (by decide)
    (by decide)).2.1

/-- C5: every refresh step with a positive configured interval cancels the
pending timer and schedules exactly one next refresh, after half the
interval when this round failed and after the full interval when it
succeeded; a non-positive interval changes nothing, and an extractor
configured with interval 0 never acquires a pending refresh. -/
theorem reset_refresh_timer_schedule :
    (∀ (s : TimerState) (failover : Bool), 0 < s.auto_refresh_interval →
      (reset_refresh_timer s failover).refresh_timer =
        some (if failover then s.auto_refresh_interval / 2
              else s.auto_refresh_interval)) ∧
    (∀ (s : TimerState) (failover : Bool), ¬ 0 < s.auto_refresh_interval →
      reset_refresh_timer s failover = s) ∧
    (∀ (l : List Bool),
      (l.foldl reset_refresh_timer (timerInit 0)).refresh_timer = none) := by
  refine ⟨?_, ?_, ?_⟩
  · intro s failover h
    simp [reset_refresh_timer, h]
  · intro s failover h
    simp [reset_refresh_timer, h]
  · intro l
    have hstep : ∀ f, reset_refresh_timer (timerInit 0) f = timerInit 0 := by
      intro f
      simp [reset_refresh_timer, timerInit]
    induction l with
    | nil => rfl
    | cons f l ih =>
      rw [List.foldl_cons, hstep]
      exact ih

/-- Witness for reset_refresh_timer_schedule: a failed round with the
default 7200-second interval schedules the next refresh at half the
interval. -/
theorem reset_refresh_timer_schedule_witness :
    (reset_refresh_timer
      { auto_refresh_interval := 7200, refresh_timer := some 7200 } true).refresh_timer
      = some (if true then (7200 : ℚ) / 2 else 7200) :=
  reset_refresh_timer_schedule.1
    { auto_refresh_interval := 7200, refresh_timer := some 7200 } true (by norm_num)

/-- C1: the douyu branch of the dispatcher can never create an extractor:
line 225 evaluates self.auto_refresh_interval with no self in scope, the
NameError is caught by the surrounding except, and every douyu request —
including one whose provider client would resolve the candidate map
flv=http://x — falls through to the 404 response instead of the 301
redirect; the douyu registry stays empty forever, so this happens on
every request. -/
theorem douyu_dispatch_always_404 :
    newDouYuExtractor = .error () ∧
    (∀ (room : String) (r : DYResolve) (br : Option String),
      douyuService [] room r br = ([], notFoundResponse)) ∧
    douyuService [] "123" (.ok [("flv", "http://x")]) none = ([], notFoundResponse) ∧
    notFoundResponse = HttpResponse.text "Not Found" none 404 := by
  refine ⟨rfl, ?_, rfl, rfl⟩
  intro room r br
  rfl

/-- C9: the 301 redirect path passes the crosHeaders dict, but the huya
manifest response and the 404 fallthrough pass crosHeaders.update({...}),
whose value is None, so those responses carry no CORS headers; an unknown
provider, and every fallthrough, yields the fixed 404 Not Found
response. -/
theorem response_headers_eval :
    notFoundResponse = HttpResponse.text "Not Found" none 404 ∧
    (∀ (b : String) (st : ℕ), huyaManifestResponse b st = .text b none st) ∧
    (∀ (f : FetchOutcome) (ru bu : String) (s : HuYaState),
      ∃ body status, (huyaProxy f ru bu s).1 = .text body none status) ∧
    (∀ (d bi h : Option HttpResponse), serviceDispatch "foo" d bi h = notFoundResponse) ∧
    (∀ (p : String), serviceDispatch p none none none = notFoundResponse) ∧
    douyuService [("123", sC9)] "123" (.ok []) none
      = ([("123", sC9)], .redirect "http://x" (some crosHeaders) 301) := by
  refine ⟨rfl, fun b st => rfl, ?_, fun d bi h => rfl, ?_, ?_⟩
  · intro f ru bu s
    cases f with
    | exn => exact ⟨_, _, rfl⟩
    | ok status body => exact ⟨_, _, rfl⟩
  · intro p
    unfold serviceDispatch
    split_ifs <;> rfl
  · rfl

/-- Counterexample to C7 as stated: a fetch that returns the non-2xx
status 500 is not treated as a failure at this layer: the body served is
the upstream body (unchanged here, as it has no .ts line) with the
upstream status 500 — not the synthesized single-variant manifest — and
cdn_index is not advanced. -/
theorem huya_proxy_non2xx_passthrough :
    huyaProxy (.ok 500 "#EXTM3U") "http://m" "http://b" sWrap0
      = (huyaManifestResponse "#EXTM3U" 500, sWrap0) ∧
    (huyaProxy (.ok 500 "#EXTM3U") "http://m" "http://b" sWrap0).2.cdn_index
      = sWrap0.cdn_index ∧
    decide ((huyaProxy (.ok 500 "#EXTM3U") "http://m" "http://b" sWrap0).1
      = huyaManifestResponse (fallbackManifest "http://m") 200) = false ∧
    decide ((huyaProxy (.ok 500 "#EXTM3U") "http://m" "http://b" sWrap0).2.cdn_index
      = sWrap0.cdn_index + 1) = false := by
  refine ⟨rfl, rfl, by decide, by decide⟩

/-- C7 (amended): if the manifest fetch raises (network error, timeout),
the response body is the synthesized single-variant manifest referencing
the unmodified resolved URL, served with status 200, and cdn_index is
advanced by one; a fetch that returns an HTTP response is passed through:
its body is rewritten and served with the upstream status and the state
unchanged, except that a 403 status resets the variant-cache freshness
timestamp, making the next variant-cache check stale (bypassing the
120-second cache). -/
theorem huya_proxy_fallback_and_403 :
    (∀ (ru bu : String) (s : HuYaState),
      huyaProxy .exn ru bu s =
        (huyaManifestResponse (fallbackManifest ru) 200,
          { s with cdn_index := s.cdn_index + 1 })) ∧
    (∀ (st : ℕ) (body ru bu : String) (s : HuYaState), st ≠ 403 →
      huyaProxy (.ok st body) ru bu s =
        (huyaManifestResponse (rewriteManifest bu body) st, s)) ∧
    (∀ (body ru bu : String) (s : HuYaState),
      (huyaProxy (.ok 403 body) ru bu s).2 = reset_last_get_real_url_time s) ∧
    (∀ (s : HuYaState) (now : ℚ),
      cacheStale (reset_last_get_real_url_time s).last_get_real_url_time now = true) := by
  refine ⟨fun ru bu s => rfl, ?_, fun body ru bu s => rfl, fun s now => rfl⟩
  intro st body ru bu s h
  simp [huyaProxy, h]

/-- Witness for huya_proxy_fallback_and_403: a returned 500 is served as a
pass-through with unchanged state. -/
theorem huya_proxy_fallback_and_403_witness :
    huyaProxy (.ok 500 "x") "u" "b" (huyaInit 0)
      = (huyaManifestResponse (rewriteManifest "b" "x") 500, huyaInit 0) :=
  huya_proxy_fallback_and_403.2.1 500 "x" "u" "b" (huyaInit 0) (by decide)

theorem cacheStale_some_false (t0 now : ℚ) (h : now - t0 ≤ 120) :
    cacheStale (some t0) now = false := by
  simp only [cacheStale, decide_eq_false_iff_not]
  linarith

theorem cacheStale_some_true (t0 now : ℚ) (h : (120 : ℚ) < now - t0) :
    cacheStale (some t0) now = true := by
  simp only [cacheStale, decide_eq_true_eq]
  exact h

/-- Counterexample to C3 as stated: a freshly initialised HuYa extractor
has cdn_index = -1, the clamping step resets only indexes at least the
CDN count, and the first _extract_real_url with three CDN endpoints
dereferences index -1 — outside [0, 3) — selecting the last endpoint h3
via Python negative indexing instead of endpoint 0. -/
theorem cdn_index_initial_negative :
    (huyaInit 0).cdn_index = -1 ∧
    huyaExtractIdx infosW.length (huyaInit 0).cdn_index = -1 ∧
    huyaExtractIdx infosW.length (huyaInit 0).cdn_index < 0 ∧
    huyaExtractE infosW (huyaInit 0) =
      .ok ({ auto_refresh_interval := 0, refresh_timer := none,
             real_url := some "h3", last_valid_real_url := some "h3",
             cdn_index := -1, last_real_urls := none,
             last_get_real_url_time := none }, false) :=
  ⟨rfl, by decide, by decide, rfl⟩

/-- C3 (amended): the re-clamping is one-sided: only an index at least the
list length is reset to 0 before dereference, and from any index at least
-1 the dereference never faults — the initial -1 is read via Python
negative indexing as the last element, so the index lies in [-1, length)
rather than [0, length); under repeated switch_cdn selectors the selected
index wraps modulo the current variant-list length: with 3 entries the
selected sequence from index 0 is 1, 2, 0. -/
theorem cdn_index_clamp_and_wrap :
    (∀ (count : ℕ) (i : ℤ), (count : ℤ) ≤ i → huyaExtractIdx count i = 0) ∧
    (∀ (count : ℕ) (i : ℤ), i < (count : ℤ) → huyaExtractIdx count i = i) ∧
    (∀ (infos : List CdnInfo) (s : HuYaState), -1 ≤ s.cdn_index →
      ∃ out, huyaExtractE infos s = .ok out) ∧
    (huyaGetRealUrl (.error ()) [] 10 sWrap0 (some "switch_cdn")
        = .ok (sWrap1, some "u1", false) ∧
      huyaGetRealUrl (.error ()) [] 10 sWrap1 (some "switch_cdn")
        = .ok (sWrap2, some "u2", false) ∧
      huyaGetRealUrl (.error ()) [] 10 sWrap2 (some "switch_cdn")
        = .ok (sWrap0, some "u0", false)) := by
  have hstale : cacheStale (some (0 : ℚ)) 10 = false :=
    cacheStale_some_false 0 10 (by norm_num)
  refine ⟨?_, ?_, ?_, ?_, ?_, ?_⟩
  · intro count i h
    simp [huyaExtractIdx, h]
  · intro count i h
    rw [huyaExtractIdx, if_neg (by omega)]
  · intro infos s h
    unfold huyaExtractE
    by_cases hlen : 0 < infos.length
    · rw [if_pos hlen]
      have hsome : (pyIdx infos (huyaExtractIdx infos.length s.cdn_index)).isSome
          = true := by
        unfold huyaExtractIdx
        split_ifs with hcl
        · exact pyIdx_isSome _ _ (by omega) (by omega) hlen
        · exact pyIdx_isSome _ _ h (by omega) hlen
      rw [Option.isSome_iff_exists] at hsome
      obtain ⟨info, hinfo⟩ := hsome
      rw [hinfo]
      exact ⟨_, rfl⟩
    · rw [if_neg hlen]
      exact ⟨_, rfl⟩
  · have e : huyaGetRealUrl (.error ()) [] 10 sWrap0 (some "switch_cdn")
        = huyaVariantStep [] 10 sWrap1 := rfl
    rw [e]
    unfold huyaVariantStep
    rw [show sWrap1.last_get_real_url_time = some (0 : ℚ) from rfl, hstale]
    decide
  · have e : huyaGetRealUrl (.error ()) [] 10 sWrap1 (some "switch_cdn")
        = huyaVariantStep [] 10 sWrap2 := rfl
    rw [e]
    unfold huyaVariantStep
    rw [show sWrap2.last_get_real_url_time = some (0 : ℚ) from rfl, hstale]
    decide
  · have e : huyaGetRealUrl (.error ()) [] 10 sWrap2 (some "switch_cdn")
        = huyaVariantStep [] 10 sWrap3 := rfl
    rw [e]
    unfold huyaVariantStep
    rw [show sWrap3.last_get_real_url_time = some (0 : ℚ) from rfl, hstale]
    decide

/-- Witness for cdn_index_clamp_and_wrap at concrete indexes and a
concrete extractor state. -/
theorem cdn_index_clamp_and_wrap_witness :
    huyaExtractIdx 3 7 = 0 ∧ huyaExtractIdx 3 (-1) = -1 ∧
    ∃ out, huyaExtractE infosW (huyaInit 0) = .ok out :=
  ⟨cdn_index_clamp_and_wrap.1 3 7 (by decide),
    cdn_index_clamp_and_wrap.2.1 3 (-1) (by decide),
    cdn_index_clamp_and_wrap.2.2.1 infosW (huyaInit 0) (by decide)⟩

/-- C6: with a prior resolution present and a non-refresh selector — any
non-refresh selector, including switch_cdn — a HuYa get_real_url call
reuses the cached variant list when the previous fetch is at most 120
seconds old, and fetches a fresh list (recording it and the fetch time)
exactly when no list was ever fetched or more than 120 seconds have
elapsed. -/
theorem huya_variant_cache_ttl (upd : Except Unit (List CdnInfo))
    (fetch : List String) (now : ℚ) (s : HuYaState) (u : String)
    (br : Option String) (hru : s.real_url = some u)
    (hbr : br ≠ some "refresh") (hidx : -1 ≤ s.cdn_index) :
    (∀ (cached : List String) (t0 : ℚ), s.last_real_urls = some cached →
      s.last_get_real_url_time = some t0 → now - t0 ≤ 120 →
      ∃ s' r, huyaGetRealUrl upd fetch now s br = .ok (s', r, false) ∧
        s'.last_real_urls = some cached ∧ s'.last_get_real_url_time = some t0) ∧
    ((s.last_real_urls = none ∨ cacheStale s.last_get_real_url_time now = true) →
      ∃ s' r, huyaGetRealUrl upd fetch now s br = .ok (s', r, true) ∧
        s'.last_real_urls = some fetch ∧ s'.last_get_real_url_time = some now) := by
  have hcond : ¬ (s.real_url = none ∨ br = some "refresh") := by
    rintro (h | h)
    · rw [hru] at h; cases h
    · exact hbr h
  have e : huyaGetRealUrl upd fetch now s br
      = huyaVariantStep fetch now (huyaSwitch br s) := by
    unfold huyaGetRealUrl
    rw [if_neg hcond, if_neg hbr]
  have hsw_urls : (huyaSwitch br s).last_real_urls = s.last_real_urls := by
    unfold huyaSwitch
    split_ifs <;> rfl
  have hsw_time : (huyaSwitch br s).last_get_real_url_time
      = s.last_get_real_url_time := by
    unfold huyaSwitch
    split_ifs <;> rfl
  have hsw_idx : -1 ≤ (huyaSwitch br s).cdn_index := by
    unfold huyaSwitch
    split_ifs
    · show -1 ≤ s.cdn_index + 1
      omega
    · exact hidx
  constructor
  · intro cached t0 hc ht hfresh
    obtain ⟨s', r, hs, h1, h2⟩ := huyaServe_ok (huyaSwitch br s) cached false hsw_idx
    refine ⟨s', r, ?_, ?_, ?_⟩
    · rw [e]
      unfold huyaVariantStep
      rw [hsw_urls, hsw_time, hc, ht, cacheStale_some_false t0 now hfresh]
      simpa using hs
    · rw [h1, hsw_urls, hc]
    · rw [h2, hsw_time, ht]
  · intro hstale
    obtain ⟨s', r, hs, h1, h2⟩ := huyaServe_ok
      { huyaSwitch br s with last_real_urls := some fetch,
                             last_get_real_url_time := some now }
      fetch true hsw_idx
    refine ⟨s', r, ?_, ?_, ?_⟩
    · rw [e]
      unfold huyaVariantStep
      have hcondT : ((huyaSwitch br s).last_real_urls.isNone
          || cacheStale (huyaSwitch br s).last_get_real_url_time now) = true := by
        rw [hsw_urls, hsw_time]
        rcases hstale with h | h
        · rw [h]; rfl
        · rw [h, Bool.or_true]
      rw [hcondT]
      simpa using hs
    · rw [h1]
    · rw [h2]

/-- Witness for huya_variant_cache_ttl: a call 60 seconds after the last
fetch, with a different selector, reuses the cached list without
fetching. -/
theorem huya_variant_cache_ttl_witness :
    ∃ s' r, huyaGetRealUrl (.error ()) ["z"] 60 sWrap0 none = .ok (s', r, false) ∧
      s'.last_real_urls = some ["u0", "u1", "u2"] ∧
      s'.last_get_real_url_time = some 0 :=
  (huya_variant_cache_ttl (.error ()) ["z"] 60 sWrap0 "h" none rfl (by decide)
    (by decide)).1 ["u0", "u1", "u2"] 0 rfl rfl (by norm_num)

/-- Counterexample to C8 as stated: a fresh HuYa extractor (no prior
resolution) whose client raises inside update_live_url_info propagates
the exception out of the synchronous get_real_url call to its caller
instead of catching it at the extractor boundary. -/
theorem huya_sync_refresh_propagates :
    (huyaInit 7200).real_url = none ∧
    huyaGetRealUrl (.error ()) [] 0 (huyaInit 7200) none = .error () :=
  ⟨rfl, rfl⟩

/-- C8 (amended): DouYu provider-client errors are caught inside
_extract_real_url, converted to the string sentinel, and treated as an
invalid resolution (failover) with last_valid_real_url retained; a
background (timer-driven) refresh swallows every exception of the
resolution step, leaving the state unchanged — in particular nothing is
logged and the refresh timer is not re-armed; but a HuYa client error
during a refresh forced synchronously by get_real_url (no prior
resolution, or selector refresh) propagates to the caller. -/
theorem refresh_error_handling :
    (∀ (s : ExtState DYVal), (douyuExtract .exn s).2 = true ∧
      (douyuExtract .exn s).1.last_valid_real_url = s.last_valid_real_url ∧
      (douyuExtract .exn s).1.real_url =
        (if s.last_valid_real_url.isSome then s.last_valid_real_url
         else some .sentinel)) ∧
    (∀ (s : HuYaState), huya_refresh_real_url (.error ()) s = s) ∧
    (∀ (s : HuYaState) (fetch : List String) (now : ℚ) (br : Option String),
      s.real_url = none ∨ br = some "refresh" →
      huyaGetRealUrl (.error ()) fetch now s br = .error ()) := by
  refine ⟨?_, fun s => rfl, ?_⟩
  · intro s
    by_cases h : s.last_valid_real_url.isSome
    · simp [douyuExtract, baseExtract, douyuClientResult, douyuIsValid, h]
    · simp [douyuExtract, baseExtract, douyuClientResult, douyuIsValid, h]
  · intro s fetch now br h
    unfold huyaGetRealUrl
    rw [if_pos h]
    rfl

/-- Witness for refresh_error_handling: a forced refresh via the refresh
selector with a raising client propagates the error. -/
theorem refresh_error_handling_witness :
    huyaGetRealUrl (.error ()) [] 5 (huyaInit 0) (some "refresh") = .error () :=
  refresh_error_handling.2.2 (huyaInit 0) [] 5 (some "refresh") (Or.inr rfl)

end RealUrlProxy
